import Mathlib

/-!
Verification of the caixa-dagua backend: a shallow embedding of the level
calculator, the startup configuration check, the timestamp normalisation and
the read-only query endpoints of the two API variants (`src/api.py`, the
SQLAlchemy variant, and `src/back/api.py`, the psycopg2 variant).

Numbers: Python `float` values are modelled as `PyFloat` — NaN, the two
infinities, or a finite value, the finite value modelled as an exact
rational.  Finite float arithmetic is modelled exactly over `ℚ`; the
IEEE-754 rounding of individual operations is out of scope, but the
special-value propagation (NaN, ±inf) and the comparison semantics (every
comparison with NaN is false) follow Python exactly.
-/

set_option maxHeartbeats 1000000

namespace CaixaDagua

/-- Model of a Python numeric value (`int` or `float`): NaN, +inf, -inf or a
finite value, the finite value modelled as an exact rational. -/
inductive PyFloat where
  | nan
  | inf
  | ninf
  | fin (q : ℚ)
deriving DecidableEq

/-- Python subtraction on floats, with IEEE special-value propagation. -/
def pfSub : PyFloat → PyFloat → PyFloat
  | .nan, _ => .nan
  | _, .nan => .nan
  | .inf, .inf => .nan
  | .inf, _ => .inf
  | .ninf, .ninf => .nan
  | .ninf, _ => .ninf
  | .fin _, .inf => .ninf
  | .fin _, .ninf => .inf
  | .fin a, .fin b => .fin (a - b)

/-- Python true division on floats.  The callers in the repository only ever
divide by a nonzero finite value (the code guards `range_nivel == 0`), so the
zero-divisor rows (where CPython raises `ZeroDivisionError`) are unreachable
and modelled arbitrarily as NaN / 0. -/
def pfDiv : PyFloat → PyFloat → PyFloat
  | .nan, _ => .nan
  | _, .nan => .nan
  | .inf, .inf => .nan
  | .inf, .ninf => .nan
  | .ninf, .inf => .nan
  | .ninf, .ninf => .nan
  | .inf, .fin b => if 0 < b then .inf else if b < 0 then .ninf else .nan
  | .ninf, .fin b => if 0 < b then .ninf else if b < 0 then .inf else .nan
  | .fin _, .inf => .fin 0
  | .fin _, .ninf => .fin 0
  | .fin a, .fin b => .fin (a / b)

/-- Python multiplication on floats, with IEEE special-value propagation. -/
def pfMul : PyFloat → PyFloat → PyFloat
  | .nan, _ => .nan
  | _, .nan => .nan
  | .inf, .inf => .inf
  | .inf, .ninf => .ninf
  | .ninf, .inf => .ninf
  | .ninf, .ninf => .inf
  | .inf, .fin b => if 0 < b then .inf else if b < 0 then .ninf else .nan
  | .ninf, .fin b => if 0 < b then .ninf else if b < 0 then .inf else .nan
  | .fin a, .inf => if 0 < a then .inf else if a < 0 then .ninf else .nan
  | .fin a, .ninf => if 0 < a then .ninf else if a < 0 then .inf else .nan
  | .fin a, .fin b => .fin (a * b)

/-- Python `<` on floats: any comparison involving NaN is false. -/
def pfLt : PyFloat → PyFloat → Bool
  | .nan, _ => false
  | _, .nan => false
  | .ninf, .ninf => false
  | .ninf, _ => true
  | _, .ninf => false
  | .inf, _ => false
  | .fin _, .inf => true
  | .fin a, .fin b => decide (a < b)

/-- Python `<=` on floats: any comparison involving NaN is false. -/
def pfLe : PyFloat → PyFloat → Bool
  | .nan, _ => false
  | _, .nan => false
  | .ninf, _ => true
  | _, .ninf => false
  | _, .inf => true
  | .inf, _ => false
  | .fin a, .fin b => decide (a ≤ b)

/-- CPython two-argument `min(a, b)`: starts from `a` and replaces it by `b`
only when `b < a`; hence `min(a, nan) = a` and `min(nan, b) = nan`. -/
def pymin (a b : PyFloat) : PyFloat := if pfLt b a then b else a

/-- CPython two-argument `max(a, b)`: starts from `a` and replaces it by `b`
only when `b > a`; hence `max(a, nan) = a` and `max(nan, b) = nan`. -/
def pymax (a b : PyFloat) : PyFloat := if pfLt a b then b else a

/-- Python `round` with one argument on a finite float value: round to the
nearest integer, ties going to the even integer (round-half-to-even).
(`Rat.floor` is used rather than `⌊·⌋` so the function evaluates by kernel
reduction; `pyRound_floor_def` below restates it through `Int.floor`.) -/
def pyRound (q : ℚ) : ℤ :=
  if q - q.floor < 1/2 then q.floor
  else if 1/2 < q - q.floor then q.floor + 1
  else if 2 ∣ q.floor then q.floor else q.floor + 1

/-- Result of the Python function `calcular_nivel_percentual`: the `None`
sentinel, an `int`, or an uncaught exception (`round` applied to NaN or an
infinity raises; this branch is provably unreachable). -/
inductive LevelResult where
  | noValue
  | value (n : ℤ)
  | raised
deriving DecidableEq

namespace Api

/-- Function `_calcular_nivel_percentual` from `src/api.py` (lines 50-63).
The input `Option.none` stands for any argument failing the
`isinstance(x, (int, float))` test (`None` or any non-numeric object); note
NaN and the infinities are `float` instances and pass that test. -/
def calcular_nivel_percentual (distancia_original : Option PyFloat)
    (min_val max_val : ℤ) : LevelResult :=
  match distancia_original with
  | Option.none => .noValue
  | Option.some d =>
    let range_nivel : ℤ := max_val - min_val
    if range_nivel = 0 then .value 0
    else
      let nivel_normalizado :=
        pfSub (.fin 1) (pfDiv (pfSub d (.fin (min_val : ℚ))) (.fin (range_nivel : ℚ)))
      let nivel_percentual :=
        pymax (.fin 0) (pymin (.fin 100) (pfMul nivel_normalizado (.fin 100)))
      match nivel_percentual with
      | .fin q => .value (pyRound q)
      | _ => .raised

end Api

namespace Back

/-- Function `calcular_nivel_percentual` from `src/back/api.py` (lines
66-88); the body is textually identical to the one in the SQLAlchemy
variant. -/
def calcular_nivel_percentual (distancia_original : Option PyFloat)
    (min_val max_val : ℤ) : LevelResult :=
  match distancia_original with
  | Option.none => .noValue
  | Option.some d =>
    let range_nivel : ℤ := max_val - min_val
    if range_nivel = 0 then .value 0
    else
      let nivel_normalizado :=
        pfSub (.fin 1) (pfDiv (pfSub d (.fin (min_val : ℚ))) (.fin (range_nivel : ℚ)))
      let nivel_percentual :=
        pymax (.fin 0) (pymin (.fin 100) (pfMul nivel_normalizado (.fin 100)))
      match nivel_percentual with
      | .fin q => .value (pyRound q)
      | _ => .raised

/-- Outcome of importing the `src/back/api.py` module: either the process
dies during startup, or the module finishes loading and the app serves,
remembering the two bounds and whether the configuration check printed its
error message. -/
inductive StartupOutcome where
  | crashed
  | serving (min_nivel max_nivel : ℤ) (configError : Bool)
deriving DecidableEq

/-- Module-level startup of `src/back/api.py` (lines 17-25):
`int(os.getenv(...))` raises on a missing or unconvertible value, killing
the process; then `if MAX_NIVEL_VALUE <= MIN_NIVEL_VALUE:` only prints an
error message — the `sys.exit(1)` is commented out — and loading
continues.  `Option.none` models a missing or unconvertible environment
value. -/
def startup (envMin envMax : Option ℤ) : StartupOutcome :=
  match envMin, envMax with
  | some mn, some mx => .serving mn mx (decide (mx ≤ mn))
  | _, _ => .crashed

end Back

/-- Model of a Python `datetime`: the wall-clock reading (in minutes) plus
its `tzinfo`, recorded as a fixed UTC offset in minutes (`Option.none` for
a naive datetime).  `America/Recife` is a fixed UTC-03:00 zone with no
daylight saving, so a constant offset is faithful. -/
structure PyDatetime where
  naive : ℤ
  tz : Option ℤ
deriving DecidableEq

/-- Python `dt.replace(tzinfo=timezone.utc)`. -/
def replaceTzUtc (dt : PyDatetime) : PyDatetime := { dt with tz := some 0 }

/-- Python `dt.astimezone(target)` for an offset-aware `dt`: shift the wall
clock to the target offset, keeping the denoted instant.  (On a naive `dt`
CPython would assume the system zone; both call sites in the repository
first force `dt` to be aware, so the `getD 0` default is never read.) -/
def astimezone (dt : PyDatetime) (target : ℤ) : PyDatetime :=
  { naive := dt.naive - dt.tz.getD 0 + target, tz := some target }

/-- The instant a stored timestamptz denotes, in minutes UTC. -/
def instantOf (dt : PyDatetime) : ℤ := dt.naive - dt.tz.getD 0

/-- The shape of `dt.isoformat()` that matters here: the serialized
wall-clock value and whether the string carries an explicit `±HH:MM`
offset suffix (aware datetimes serialize with one, naive ones without). -/
structure IsoTimestamp where
  wall : ℤ
  offset : Option ℤ
deriving DecidableEq

/-- Serialization `dt.isoformat()`, reduced to the shape above. -/
def isoformat (dt : PyDatetime) : IsoTimestamp := ⟨dt.naive, dt.tz⟩

/-- UTC offset of `America/Recife` in minutes (fixed UTC-03:00). -/
def recifeOffset : ℤ := -180

namespace Back

/-- Timestamp processing shared by both endpoints of `src/back/api.py`
(lines 110-116 and 165-171): if the stored timestamp is naive, attach a
UTC offset; convert to `America/Recife`; serialize with `isoformat`. -/
def process_created_on (dt : PyDatetime) : IsoTimestamp :=
  let aware := if dt.tz = Option.none then replaceTzUtc dt else dt
  isoformat (astimezone aware recifeOffset)

end Back

namespace Api

/-- Timestamp handling of `_processar_leitura` in `src/api.py` (line 71):
`leitura_obj.created_on.isoformat()` — no timezone handling at all. -/
def processar_created_on (dt : PyDatetime) : IsoTimestamp := isoformat dt

end Api

/-- A stored row of the `leituras` table as the window query sees it.
`created_on` is the stored timestamptz, modelled as the instant it denotes
(minutes, UTC) — SQL comparison and ordering on a timestamptz column is by
instant; its string serialization is modelled separately via
`PyDatetime`. -/
structure Leitura where
  id : ℤ
  distancia : Option PyFloat
  created_on : ℤ
deriving DecidableEq

/-- HTTP-level outcome of one request: a successful JSON body, a FastAPI
parameter-validation rejection (status 422, produced before the handler
body runs), or an `HTTPException` raised by the handler. -/
inductive Answer (β : Type) where
  | ok (body : β)
  | validationError (status : ℕ)
  | httpError (status : ℕ) (detail : String)
deriving DecidableEq

/-- The two admissible values of the `unit` path parameter
(`Literal["h", "d"]`). -/
inductive TimeUnit where
  | h
  | d
deriving DecidableEq

namespace Api

/-- FastAPI validation of the `unit` path parameter against
`Literal["h", "d"]`. -/
def parseUnit : String → Option TimeUnit
  | "h" => some TimeUnit.h
  | "d" => some TimeUnit.d
  | _ => Option.none

/-- Python `timedelta(hours=value)` / `timedelta(days=value)`, in
minutes. -/
def deltaMinutes : TimeUnit → ℤ → ℤ
  | TimeUnit.h, v => 60 * v
  | TimeUnit.d, v => 1440 * v

/-- The response record assembled by `_processar_leitura`
(`src/api.py`, lines 65-78): id and distance carried through, computed
level attached.  (The timestamp string is modelled by
`processar_created_on` above.) -/
structure LeituraResponse where
  id : ℤ
  distancia : Option PyFloat
  nivel : LevelResult
  created_on : ℤ
deriving DecidableEq

/-- Assembly of one response record (`_processar_leitura`). -/
def processar_leitura (r : Leitura) (mn mx : ℤ) : LeituraResponse :=
  ⟨r.id, r.distancia, calcular_nivel_percentual r.distancia mn mx, r.created_on⟩

/-- State of the database dependency during one request: the rows the
query would see, or a failing store (with the exception text as the
underlying cause). -/
inductive DbState where
  | ok (rows : List Leitura)
  | failure (cause : String)

/-- The SQL query
`WHERE created_on >= cutoff ORDER BY created_on ASC` over the stored
rows. -/
def windowRows (rows : List Leitura) (cutoff : ℤ) : List Leitura :=
  (rows.filter (fun r => decide (cutoff ≤ r.created_on))).mergeSort
    (fun a b => decide (a.created_on ≤ b.created_on))

/-- Endpoint `GET /leituras/{unit}/{value}` from `src/api.py` (lines
110-128).  FastAPI validates `unit ∈ {h, d}` and `value ≥ 1` before the
handler body (and hence before any query) runs; inside the handler the
cutoff is `datetime.now(timezone.utc) - delta` (`now` below), and any
store failure is turned into a generic 500. -/
def get_leituras_por_periodo (unit : String) (value : ℤ) (db : DbState)
    (now mn mx : ℤ) : Answer (List LeituraResponse) :=
  match parseUnit unit with
  | Option.none => .validationError 422
  | some u =>
    if value < 1 then .validationError 422
    else
      match db with
      | .failure _ => .httpError 500 "Erro interno do servidor ao buscar histórico"
      | .ok rows =>
        .ok ((windowRows rows (now - deltaMinutes u value)).map
          (fun r => processar_leitura r mn mx))

end Api

namespace Back

/-- A stored row as the psycopg2 variant sees it: the timestamptz is kept
as the datetime object the driver hands back (ordering in SQL is by the
instant it denotes). -/
structure Row where
  id : ℤ
  distancia : Option PyFloat
  created_on : PyDatetime
deriving DecidableEq

/-- Response record of `GET /leituras/ultima` in `src/back/api.py`. -/
structure UltimaRecord where
  id : ℤ
  distancia : Option PyFloat
  created_on : IsoTimestamp
  nivel : LevelResult
deriving DecidableEq

/-- State of the database for one request of the psycopg2 variant:
`connect_db()` returned `None` (connection failure), the query raised, or
the rows are available. -/
inductive DbState where
  | connFail (cause : String)
  | queryFail (cause : String)
  | ok (rows : List Row)

/-- Query `SELECT ... ORDER BY created_on DESC LIMIT 1`: the first row of
the descending sort by stored instant, if any. -/
def latestRow (rows : List Row) : Option Row :=
  (rows.mergeSort (fun a b => decide (instantOf b.created_on ≤ instantOf a.created_on))).head?

/-- Endpoint `GET /leituras/ultima` from `src/back/api.py` (lines 92-138):
connection failure → 503 with a fixed generic detail; any exception during
the query → 500 with a fixed generic detail; no rows → `return {}`
(modelled `.ok Option.none`); otherwise the processed record. -/
def get_ultima_leitura (db : DbState) (mn mx : ℤ) : Answer (Option UltimaRecord) :=
  match db with
  | .connFail _ =>
    .httpError 503 "Serviço indisponível: Falha na conexão com o banco de dados"
  | .queryFail _ =>
    .httpError 500 "Erro interno do servidor ao buscar última leitura"
  | .ok rows =>
    match latestRow rows with
    | Option.none => .ok Option.none
    | some r =>
      .ok (some ⟨r.id, r.distancia, process_created_on r.created_on,
        calcular_nivel_percentual r.distancia mn mx⟩)

/-- The SQL query
`WHERE created_on >= cutoff ORDER BY created_on ASC` of the psycopg2
variant, over the stored rows (comparison and ordering by the instant the
timestamptz denotes). -/
def windowRows (rows : List Row) (cutoff : ℤ) : List Row :=
  (rows.filter (fun r => decide (cutoff ≤ instantOf r.created_on))).mergeSort
    (fun a b => decide (instantOf a.created_on ≤ instantOf b.created_on))

/-- Endpoint `GET /leituras` from `src/back/api.py` (lines 140-191).  Its
only parameter is the integer query parameter `periodo_horas` (default
`24`); there is no unit parameter and no positivity check, so every
integer — zero and negative values included — reaches the handler body,
which connects to the store and runs the query with cutoff
`datetime.now(timezone.utc) - timedelta(hours=periodo_horas)`.  Each
returned row is processed exactly as in `get_ultima_leitura`, so the same
record shape is reused. -/
def get_leituras_por_periodo (periodo_horas : ℤ) (db : DbState)
    (now mn mx : ℤ) : Answer (List UltimaRecord) :=
  match db with
  | .connFail _ =>
    .httpError 503 "Serviço indisponível: Falha na conexão com o banco de dados"
  | .queryFail _ =>
    .httpError 500 "Erro interno do servidor ao buscar histórico"
  | .ok rows =>
    .ok ((windowRows rows (now - 60 * periodo_horas)).map
      (fun r => ⟨r.id, r.distancia, process_created_on r.created_on,
        calcular_nivel_percentual r.distancia mn mx⟩))

end Back

/-- Concrete store for the C4 witness: one reading exactly at the cutoff
instant (for `now = 70`, window one hour) and one before it. -/
def demoRows : List Leitura := [⟨1, some (.fin 30), 10⟩, ⟨2, some (.fin 20), 3⟩]

theorem rat_floor_eq_intFloor (q : ℚ) : q.floor = ⌊q⌋ := by
  rw [Rat.floor_def', Rat.floor_def]

theorem pyRound_floor_def (q : ℚ) :
    pyRound q =
      if q - ⌊q⌋ < 1/2 then ⌊q⌋
      else if 1/2 < q - ⌊q⌋ then ⌊q⌋ + 1
      else if 2 ∣ ⌊q⌋ then ⌊q⌋ else ⌊q⌋ + 1 := by
  rw [pyRound, rat_floor_eq_intFloor]

/-- The two variants have syntactically identical calculator bodies, so
they are definitionally equal; shared helper for the lemmas below. -/
theorem back_calc_eq_api_calc (d : Option PyFloat) (mn mx : ℤ) :
    Back.calcular_nivel_percentual d mn mx = Api.calcular_nivel_percentual d mn mx := rfl

theorem pymin_fin (a b : ℚ) : pymin (.fin a) (.fin b) = .fin (min a b) := by
  simp only [pymin, pfLt, decide_eq_true_eq]
  split_ifs with h
  · rw [min_eq_right h.le]
  · rw [min_eq_left (not_lt.mp h)]

theorem pymax_fin (a b : ℚ) : pymax (.fin a) (.fin b) = .fin (max a b) := by
  simp only [pymax, pfLt, decide_eq_true_eq]
  split_ifs with h
  · rw [max_eq_right h.le]
  · rw [max_eq_left (not_lt.mp h)]

theorem pyRound_intCast (n : ℤ) : pyRound (n : ℚ) = n := by
  rw [pyRound_floor_def, Int.floor_intCast]
  norm_num

theorem pyRound_mono {a b : ℚ} (hab : a ≤ b) : pyRound a ≤ pyRound b := by
  have hmono : ⌊a⌋ ≤ ⌊b⌋ := Int.floor_mono hab
  rw [pyRound_floor_def, pyRound_floor_def]
  rcases eq_or_lt_of_le hmono with heq | hlt
  · rw [← heq]
    have hr : a - (⌊a⌋ : ℚ) ≤ b - (⌊a⌋ : ℚ) := by linarith
    split_ifs <;> first | omega | linarith
  · split_ifs <;> omega

theorem pyRound_nonneg {q : ℚ} (h : 0 ≤ q) : 0 ≤ pyRound q := by
  have := pyRound_mono h
  rwa [show pyRound (0 : ℚ) = 0 by simpa using pyRound_intCast 0] at this

theorem pyRound_le_hundred {q : ℚ} (h : q ≤ 100) : pyRound q ≤ 100 := by
  have := pyRound_mono h
  rwa [show pyRound (100 : ℚ) = 100 by simpa using pyRound_intCast 100] at this

/-- Reduction of the level calculator on a finite numeric distance, when the
calibration range is nonzero: the result is the clamped, rounded percentage. -/
theorem api_calc_fin (q : ℚ) (mn mx : ℤ) (h : mx - mn ≠ 0) :
    Api.calcular_nivel_percentual (some (.fin q)) mn mx =
      .value (pyRound (max 0 (min 100 ((1 - (q - mn) / ((mx : ℚ) - mn)) * 100)))) := by
  unfold Api.calcular_nivel_percentual
  dsimp only
  rw [if_neg h]
  simp only [pfSub, pfDiv, pfMul, pymin_fin, pymax_fin]
  push_cast
  rfl

example : Api.calcular_nivel_percentual (some (.fin 20)) 10 50 = .value 75 := by
  rw [api_calc_fin 20 10 50 (by norm_num)]
  norm_num [pyRound_floor_def]

example : pyRound (1/2) = 0 := by norm_num [pyRound_floor_def]

example : pyRound (3/2) = 2 := by norm_num [pyRound_floor_def]

example : pyRound (5/2) = 2 := by norm_num [pyRound_floor_def]

theorem pyRound_zero : pyRound (0 : ℚ) = 0 := by
  simpa using pyRound_intCast 0

theorem pyRound_hundred : pyRound (100 : ℚ) = 100 := by
  simpa using pyRound_intCast 100

theorem api_calc_none (mn mx : ℤ) :
    Api.calcular_nivel_percentual Option.none mn mx = .noValue := rfl

/-- When the two calibration bounds coincide the guard `range_nivel == 0`
fires before the distance is even inspected: every numeric input (NaN and the
infinities included) yields level `0`. -/
theorem api_calc_degenerate (m : ℤ) (d : PyFloat) :
    Api.calcular_nivel_percentual (some d) m m = .value 0 := by
  simp [Api.calcular_nivel_percentual]

/-- NaN passes `isinstance(x, (int, float))`, propagates through the
arithmetic, and is then discarded by `min(100.0, nan) = 100.0`: the result is
the integer `100`, not the `None` sentinel. -/
theorem api_calc_nan (mn mx : ℤ) (h : mx - mn ≠ 0) :
    Api.calcular_nivel_percentual (some .nan) mn mx = .value 100 := by
  unfold Api.calcular_nivel_percentual
  dsimp only
  rw [if_neg h]
  simp only [pfSub, pfDiv, pfMul, pymin, pymax, pfLt]
  norm_num [pyRound_hundred]

theorem api_calc_inf (mn mx : ℤ) (h : 0 < mx - mn) :
    Api.calcular_nivel_percentual (some .inf) mn mx = .value 0 := by
  have hq : (0 : ℚ) < ((mx - mn : ℤ) : ℚ) := by exact_mod_cast h
  unfold Api.calcular_nivel_percentual
  dsimp only
  rw [if_neg (by omega : ¬ mx - mn = 0)]
  simp only [pfSub, pfDiv, pfMul, pymin, pymax, pfLt, if_pos hq]
  norm_num [pyRound_zero]

theorem api_calc_ninf (mn mx : ℤ) (h : 0 < mx - mn) :
    Api.calcular_nivel_percentual (some .ninf) mn mx = .value 100 := by
  have hq : (0 : ℚ) < ((mx - mn : ℤ) : ℚ) := by exact_mod_cast h
  unfold Api.calcular_nivel_percentual
  dsimp only
  rw [if_neg (by omega : ¬ mx - mn = 0)]
  simp only [pfSub, pfDiv, pfMul, pymin, pymax, pfLt, if_pos hq]
  norm_num [pyRound_hundred]

/-- Whatever the finite distance, the clamp keeps the rounded result inside
`[0, 100]`. -/
theorem api_calc_fin_bounds (q : ℚ) (mn mx : ℤ) (h : mx - mn ≠ 0) :
    ∃ n : ℤ, Api.calcular_nivel_percentual (some (.fin q)) mn mx = .value n ∧
      0 ≤ n ∧ n ≤ 100 := by
  refine ⟨_, api_calc_fin q mn mx h, ?_, ?_⟩
  · exact pyRound_nonneg (le_max_left _ _)
  · exact pyRound_le_hundred (max_le (by norm_num) (min_le_left _ _))

theorem api_calc_at_min (mn mx : ℤ) (h : mx - mn ≠ 0) :
    Api.calcular_nivel_percentual (some (.fin (mn : ℚ))) mn mx = .value 100 := by
  rw [api_calc_fin _ _ _ h]
  norm_num [pyRound_hundred]

theorem api_calc_at_max (mn mx : ℤ) (h : mx - mn ≠ 0) :
    Api.calcular_nivel_percentual (some (.fin (mx : ℚ))) mn mx = .value 0 := by
  have hne : (mx : ℚ) - mn ≠ 0 := by
    intro hc
    apply h
    have : ((mx - mn : ℤ) : ℚ) = 0 := by push_cast; linarith
    exact_mod_cast this
  rw [api_calc_fin _ _ _ h, div_self hne]
  norm_num [pyRound_zero]

theorem api_calc_below_min (q : ℚ) (mn mx : ℤ) (hr : 0 < mx - mn) (hq : q < (mn : ℚ)) :
    Api.calcular_nivel_percentual (some (.fin q)) mn mx = .value 100 := by
  have hrq : (0 : ℚ) < (mx : ℚ) - mn := by
    have : ((0 : ℤ) : ℚ) < ((mx - mn : ℤ) : ℚ) := by exact_mod_cast hr
    push_cast at this
    linarith
  rw [api_calc_fin _ _ _ (by omega)]
  have hdiv : (q - (mn : ℚ)) / ((mx : ℚ) - mn) < 0 :=
    div_neg_of_neg_of_pos (by linarith) hrq
  have h100 : (100 : ℚ) ≤ (1 - (q - (mn : ℚ)) / ((mx : ℚ) - mn)) * 100 := by nlinarith
  rw [min_eq_left h100, max_eq_right (by norm_num : (0 : ℚ) ≤ 100)]
  exact congrArg LevelResult.value pyRound_hundred

theorem api_calc_above_max (q : ℚ) (mn mx : ℤ) (hr : 0 < mx - mn) (hq : (mx : ℚ) < q) :
    Api.calcular_nivel_percentual (some (.fin q)) mn mx = .value 0 := by
  have hrq : (0 : ℚ) < (mx : ℚ) - mn := by
    have : ((0 : ℤ) : ℚ) < ((mx - mn : ℤ) : ℚ) := by exact_mod_cast hr
    push_cast at this
    linarith
  rw [api_calc_fin _ _ _ (by omega)]
  have hdiv : 1 < (q - (mn : ℚ)) / ((mx : ℚ) - mn) := (one_lt_div hrq).mpr (by linarith)
  have hneg : (1 - (q - (mn : ℚ)) / ((mx : ℚ) - mn)) * 100 ≤ 0 := by nlinarith
  rw [min_eq_right (by linarith : (1 - (q - (mn : ℚ)) / ((mx : ℚ) - mn)) * 100 ≤ 100),
    max_eq_left hneg]
  exact congrArg LevelResult.value pyRound_zero

/-- The clamped percentage is antitone in the distance (the inversion noted
in the source: smaller distance means fuller tank). -/
theorem clamp_antitone (mn mx : ℤ) (hr : 0 < mx - mn) {q1 q2 : ℚ} (hq : q1 ≤ q2) :
    max 0 (min 100 ((1 - (q2 - (mn : ℚ)) / ((mx : ℚ) - mn)) * 100)) ≤
      max 0 (min 100 ((1 - (q1 - (mn : ℚ)) / ((mx : ℚ) - mn)) * 100)) := by
  have hrq : (0 : ℚ) < (mx : ℚ) - mn := by
    have : ((0 : ℤ) : ℚ) < ((mx - mn : ℤ) : ℚ) := by exact_mod_cast hr
    push_cast at this
    linarith
  apply max_le_max le_rfl
  apply min_le_min le_rfl
  apply mul_le_mul_of_nonneg_right _ (by norm_num : (0 : ℚ) ≤ 100)
  apply sub_le_sub_left
  exact (div_le_div_iff_of_pos_right hrq).mpr (by linarith)

theorem leitura_le_trans (a b c : Leitura) :
    decide (a.created_on ≤ b.created_on) → decide (b.created_on ≤ c.created_on) →
    decide (a.created_on ≤ c.created_on) = true := by
  simp only [decide_eq_true_eq]
  omega

theorem leitura_le_total (a b : Leitura) :
    (decide (a.created_on ≤ b.created_on) || decide (b.created_on ≤ a.created_on)) = true := by
  simp only [Bool.or_eq_true, decide_eq_true_eq]
  omega

/-- The rows the window query returns are exactly the stored rows at or
after the cutoff (as a multiset) and they come out sorted ascending by
`created_on`. -/
theorem windowRows_spec (rows : List Leitura) (cutoff : ℤ) :
    (∀ r : Leitura, r ∈ Api.windowRows rows cutoff ↔
      r ∈ rows ∧ cutoff ≤ r.created_on) ∧
    (Api.windowRows rows cutoff).Perm
      (rows.filter (fun r => decide (cutoff ≤ r.created_on))) ∧
    List.Pairwise (fun a b : Leitura => a.created_on ≤ b.created_on)
      (Api.windowRows rows cutoff) := by
  refine ⟨?_, ?_, ?_⟩
  · intro r
    simp [Api.windowRows, List.mem_filter]
  · exact List.mergeSort_perm _ _
  · have hs := List.sorted_mergeSort leitura_le_trans leitura_le_total
      (rows.filter (fun r => decide (cutoff ≤ r.created_on)))
    exact hs.imp (fun hab => by simpa using hab)

/-- Claim C1: for integer calibration bounds with `min < max`, the level
calculator returns a value in `[0, 100]` for every distance in `[min, max]`,
returns `100` at `min` and for any distance below `min`, returns `0` at `max`
and for any distance above `max`, returns the `None` sentinel on a missing
distance, and returns `0` for every numeric distance when `min == max`. -/
theorem C1_compute_level_contract (mn mx : ℤ) (h : mn < mx) :
    (∀ q : ℚ, (mn : ℚ) ≤ q → q ≤ (mx : ℚ) →
      ∃ n : ℤ, Api.calcular_nivel_percentual (some (.fin q)) mn mx = .value n ∧
        0 ≤ n ∧ n ≤ 100) ∧
    Api.calcular_nivel_percentual (some (.fin (mn : ℚ))) mn mx = .value 100 ∧
    Api.calcular_nivel_percentual (some (.fin (mx : ℚ))) mn mx = .value 0 ∧
    (∀ q : ℚ, q < (mn : ℚ) →
      Api.calcular_nivel_percentual (some (.fin q)) mn mx = .value 100) ∧
    (∀ q : ℚ, (mx : ℚ) < q →
      Api.calcular_nivel_percentual (some (.fin q)) mn mx = .value 0) ∧
    Api.calcular_nivel_percentual Option.none mn mx = .noValue ∧
    (∀ (m : ℤ) (d : PyFloat),
      Api.calcular_nivel_percentual (some d) m m = .value 0) := by
  have hne : mx - mn ≠ 0 := by omega
  have hr : 0 < mx - mn := by omega
  refine ⟨fun q _ _ => api_calc_fin_bounds q mn mx hne,
    api_calc_at_min mn mx hne,
    api_calc_at_max mn mx hne,
    fun q hq => api_calc_below_min q mn mx hr hq,
    fun q hq => api_calc_above_max q mn mx hr hq,
    api_calc_none mn mx,
    fun m d => api_calc_degenerate m d⟩

/-- Witness for C1 at the concrete bounds `min = 10`, `max = 50` and the
concrete distances `30` (inside the range), `10`, `50`, and degenerate
bounds `7 = 7` with distance `3`. -/
theorem C1_witness :
    (10 : ℤ) < 50 ∧
    (∃ n : ℤ, Api.calcular_nivel_percentual (some (.fin 30)) 10 50 = .value n ∧
      0 ≤ n ∧ n ≤ 100) ∧
    Api.calcular_nivel_percentual (some (.fin ((10 : ℤ) : ℚ))) 10 50 = .value 100 ∧
    Api.calcular_nivel_percentual (some (.fin ((50 : ℤ) : ℚ))) 10 50 = .value 0 ∧
    Api.calcular_nivel_percentual Option.none 10 50 = .noValue ∧
    Api.calcular_nivel_percentual (some (.fin 3)) 7 7 = .value 0 := by
  have h := C1_compute_level_contract 10 50 (by norm_num)
  exact ⟨by norm_num, h.1 30 (by norm_num) (by norm_num), h.2.1, h.2.2.1,
    h.2.2.2.2.2.1, h.2.2.2.2.2.2 7 (.fin 3)⟩

/-- Counterexample to claim C2: with `MIN_NIVEL = 50` and `MAX_NIVEL = 10`
(max ≤ min) the psycopg2 variant does not refuse to start — the
`sys.exit(1)` is commented out — it logs the configuration error and keeps
serving. -/
theorem C2_counterexample :
    Back.startup (some 50) (some 10) = .serving 50 10 true ∧
    Back.startup (some 50) (some 10) ≠ .crashed := by
  exact ⟨by decide, by decide⟩

/-- Claim C2 as amended: when the configured bounds violate
`max_distance > min_distance` the service logs a configuration error but
still starts and serves; it refuses to start only when a bound is missing
or unconvertible. -/
theorem C2_amended_startup (mn mx : ℤ) (h : mx ≤ mn) :
    Back.startup (some mn) (some mx) = .serving mn mx true ∧
    (∀ e : Option ℤ, Back.startup Option.none e = .crashed) ∧
    (∀ mn0 : ℤ, Back.startup (some mn0) Option.none = .crashed) := by
  refine ⟨?_, fun e => by cases e <;> rfl, fun _ => rfl⟩
  simp [Back.startup, h]

/-- Witness for the amended C2 at `MIN_NIVEL = 50`, `MAX_NIVEL = 10`. -/
theorem C2_amended_witness :
    (10 : ℤ) ≤ 50 ∧ Back.startup (some 50) (some 10) = .serving 50 10 true :=
  ⟨by norm_num, (C2_amended_startup 50 10 (by norm_num)).1⟩

/-- Counterexample to claim C3: NaN and the infinities are not valid finite
numbers, yet `calcular_nivel_percentual` does not return the `None`
sentinel for them — `isinstance(x, (int, float))` accepts them, and with
bounds `10`/`50` NaN yields `100`, `+inf` yields `0` and `-inf` yields
`100`. -/
theorem C3_counterexample :
    Api.calcular_nivel_percentual (some .nan) 10 50 = .value 100 ∧
    Api.calcular_nivel_percentual (some .nan) 10 50 ≠ .noValue ∧
    Api.calcular_nivel_percentual (some .inf) 10 50 = .value 0 ∧
    Api.calcular_nivel_percentual (some .ninf) 10 50 = .value 100 := by
  refine ⟨api_calc_nan 10 50 (by norm_num), ?_, api_calc_inf 10 50 (by norm_num),
    api_calc_ninf 10 50 (by norm_num)⟩
  rw [api_calc_nan 10 50 (by norm_num)]
  simp

/-- Claim C3 as amended: absent/non-numeric distances yield the sentinel,
but NaN and the infinities pass the numeric-type test; with `min < max`,
NaN yields `100`, `+inf` yields `0`, `-inf` yields `100`, and every finite
numeric distance yields an integer in `[0, 100]`. -/
theorem C3_amended_output_range (mn mx : ℤ) (h : mn < mx) :
    Api.calcular_nivel_percentual Option.none mn mx = .noValue ∧
    Api.calcular_nivel_percentual (some .nan) mn mx = .value 100 ∧
    Api.calcular_nivel_percentual (some .inf) mn mx = .value 0 ∧
    Api.calcular_nivel_percentual (some .ninf) mn mx = .value 100 ∧
    ∀ q : ℚ, ∃ n : ℤ, Api.calcular_nivel_percentual (some (.fin q)) mn mx = .value n ∧
      0 ≤ n ∧ n ≤ 100 := by
  have hne : mx - mn ≠ 0 := by omega
  have hr : 0 < mx - mn := by omega
  exact ⟨api_calc_none mn mx, api_calc_nan mn mx hne, api_calc_inf mn mx hr,
    api_calc_ninf mn mx hr, fun q => api_calc_fin_bounds q mn mx hne⟩

/-- Witness for the amended C3 at bounds `10`/`50` and finite distance `20`. -/
theorem C3_amended_witness :
    Api.calcular_nivel_percentual Option.none 10 50 = .noValue ∧
    Api.calcular_nivel_percentual (some .nan) 10 50 = .value 100 ∧
    Api.calcular_nivel_percentual (some .inf) 10 50 = .value 0 ∧
    Api.calcular_nivel_percentual (some .ninf) 10 50 = .value 100 ∧
    ∃ n : ℤ, Api.calcular_nivel_percentual (some (.fin 20)) 10 50 = .value n ∧
      0 ≤ n ∧ n ≤ 100 := by
  have h := C3_amended_output_range 10 50 (by norm_num)
  exact ⟨h.1, h.2.1, h.2.2.1, h.2.2.2.1, h.2.2.2.2 20⟩

/-- Claim C4: for a valid unit and a positive count the window endpoint
succeeds with exactly the stored readings whose `created_on` is at or
after the cutoff `now - delta` — one exactly at the cutoff included —
sorted ascending by `created_on`; the empty store yields the successful
empty sequence, not an error. -/
theorem C4_window_query_contract (unit : String) (u : TimeUnit)
    (hu : Api.parseUnit unit = some u) (value : ℤ) (hv : 1 ≤ value)
    (rows : List Leitura) (now mn mx : ℤ) :
    Api.get_leituras_por_periodo unit value (.ok rows) now mn mx =
      .ok ((Api.windowRows rows (now - Api.deltaMinutes u value)).map
        (fun r => Api.processar_leitura r mn mx)) ∧
    (∀ r : Leitura, r ∈ Api.windowRows rows (now - Api.deltaMinutes u value) ↔
      r ∈ rows ∧ now - Api.deltaMinutes u value ≤ r.created_on) ∧
    (Api.windowRows rows (now - Api.deltaMinutes u value)).Perm
      (rows.filter (fun r => decide (now - Api.deltaMinutes u value ≤ r.created_on))) ∧
    List.Pairwise (fun a b : Leitura => a.created_on ≤ b.created_on)
      (Api.windowRows rows (now - Api.deltaMinutes u value)) ∧
    (∀ r : Leitura, r ∈ rows → r.created_on = now - Api.deltaMinutes u value →
      r ∈ Api.windowRows rows (now - Api.deltaMinutes u value)) ∧
    Api.get_leituras_por_periodo unit value (.ok []) now mn mx = .ok [] := by
  obtain ⟨hmem, hperm, hsorted⟩ := windowRows_spec rows (now - Api.deltaMinutes u value)
  have hshape : ∀ rs : List Leitura,
      Api.get_leituras_por_periodo unit value (.ok rs) now mn mx =
        .ok ((Api.windowRows rs (now - Api.deltaMinutes u value)).map
          (fun r => Api.processar_leitura r mn mx)) := by
    intro rs
    unfold Api.get_leituras_por_periodo
    rw [hu]
    dsimp only
    rw [if_neg (not_lt.mpr hv)]
  refine ⟨hshape rows, hmem, hperm, hsorted, ?_, ?_⟩
  · intro r hr heq
    exact (hmem r).mpr ⟨hr, le_of_eq heq.symm⟩
  · rw [hshape []]
    simp [Api.windowRows]

/-- Witness for C4 at unit `"h"`, count `1`, `now = 70` (cutoff `10`): the
reading at the cutoff instant is kept, the endpoint succeeds, the result
is sorted, and the empty store yields `.ok []`. -/
theorem C4_witness :
    Api.parseUnit "h" = some TimeUnit.h ∧ (1 : ℤ) ≤ 1 ∧
    Api.get_leituras_por_periodo "h" 1 (.ok demoRows) 70 10 50 =
      .ok ((Api.windowRows demoRows (70 - Api.deltaMinutes TimeUnit.h 1)).map
        (fun r => Api.processar_leitura r 10 50)) ∧
    ((⟨1, some (.fin 30), 10⟩ : Leitura) ∈
      Api.windowRows demoRows (70 - Api.deltaMinutes TimeUnit.h 1)) ∧
    List.Pairwise (fun a b : Leitura => a.created_on ≤ b.created_on)
      (Api.windowRows demoRows (70 - Api.deltaMinutes TimeUnit.h 1)) ∧
    Api.get_leituras_por_periodo "h" 1 (.ok []) 70 10 50 = .ok [] := by
  have h := C4_window_query_contract "h" TimeUnit.h rfl 1 le_rfl demoRows 70 10 50
  refine ⟨rfl, le_rfl, h.1, ?_, h.2.2.2.1, h.2.2.2.2.2⟩
  exact h.2.2.2.2.1 ⟨1, some (.fin 30), 10⟩ (by simp [demoRows]) (by decide)

/-- Counterexample to claim C5: in the SQLAlchemy variant
(`src/api.py`, `_processar_leitura`) a stored timestamp without offset
information is serialized as-is — no UTC offset is attached and the
resulting `created_on` string is bare, with no offset. -/
theorem C5_counterexample :
    (Api.processar_created_on ⟨0, Option.none⟩).offset = Option.none ∧
    Api.processar_created_on ⟨0, Option.none⟩ = ⟨0, Option.none⟩ :=
  ⟨rfl, rfl⟩

/-- Claim C5 as amended: in the psycopg2 variant (`src/back/api.py`) both
operations attach a UTC offset to a naive stored timestamp before
converting to the display zone, and always serialize with an explicit
offset (`America/Recife`, UTC-03:00); the SQLAlchemy variant
(`src/api.py`) serializes the timestamp as-is, so its output carries an
offset exactly when the stored value did. -/
theorem C5_amended_timestamp_normalization (dt : PyDatetime) :
    (Back.process_created_on dt).offset = some recifeOffset ∧
    (dt.tz = Option.none →
      Back.process_created_on dt = ⟨dt.naive + recifeOffset, some recifeOffset⟩) ∧
    (Api.processar_created_on dt).offset = dt.tz := by
  refine ⟨?_, ?_, rfl⟩
  · cases htz : dt.tz <;>
      simp [Back.process_created_on, astimezone, replaceTzUtc, isoformat, htz]
  · intro h
    simp only [Back.process_created_on, astimezone, replaceTzUtc, isoformat, h]
    simp [IsoTimestamp.mk.injEq]

/-- Witness for the amended C5 at a naive stored timestamp. -/
theorem C5_amended_witness :
    (Back.process_created_on ⟨100, Option.none⟩).offset = some recifeOffset ∧
    Back.process_created_on ⟨100, Option.none⟩ = ⟨100 + recifeOffset, some recifeOffset⟩ ∧
    (Api.processar_created_on ⟨100, Option.none⟩).offset = Option.none := by
  have h := C5_amended_timestamp_normalization ⟨100, Option.none⟩
  exact ⟨h.1, h.2.1 rfl, h.2.2⟩

/-- Claim C6: with `min < max` fixed, the level is non-increasing in the
distance: whenever `d1 <= d2` holds under Python float comparison (which
excludes NaN), the computed levels satisfy `level(d2) ≤ level(d1)`. -/
theorem C6_level_antitone (mn mx : ℤ) (h : mn < mx) (d1 d2 : PyFloat)
    (hle : pfLe d1 d2 = true) :
    ∃ n1 n2 : ℤ,
      Api.calcular_nivel_percentual (some d1) mn mx = .value n1 ∧
      Api.calcular_nivel_percentual (some d2) mn mx = .value n2 ∧
      n2 ≤ n1 := by
  have hne : mx - mn ≠ 0 := by omega
  have hr : 0 < mx - mn := by omega
  cases d1 with
  | nan => simp [pfLe] at hle
  | inf =>
    cases d2 with
    | nan => simp [pfLe] at hle
    | inf => exact ⟨0, 0, api_calc_inf mn mx hr, api_calc_inf mn mx hr, le_rfl⟩
    | ninf => simp [pfLe] at hle
    | fin q => simp [pfLe] at hle
  | ninf =>
    cases d2 with
    | nan => simp [pfLe] at hle
    | inf => exact ⟨100, 0, api_calc_ninf mn mx hr, api_calc_inf mn mx hr, by norm_num⟩
    | ninf => exact ⟨100, 100, api_calc_ninf mn mx hr, api_calc_ninf mn mx hr, le_rfl⟩
    | fin q =>
      obtain ⟨n, hn, _, hn100⟩ := api_calc_fin_bounds q mn mx hne
      exact ⟨100, n, api_calc_ninf mn mx hr, hn, hn100⟩
  | fin q1 =>
    cases d2 with
    | nan => simp [pfLe] at hle
    | ninf => simp [pfLe] at hle
    | inf =>
      obtain ⟨n, hn, hn0, _⟩ := api_calc_fin_bounds q1 mn mx hne
      exact ⟨n, 0, hn, api_calc_inf mn mx hr, hn0⟩
    | fin q2 =>
      have hq : q1 ≤ q2 := by simpa [pfLe] using hle
      refine ⟨_, _, api_calc_fin q1 mn mx hne, api_calc_fin q2 mn mx hne, ?_⟩
      exact pyRound_mono (clamp_antitone mn mx hr hq)

/-- Witness for C6 at bounds `10`/`50` and finite distances `15 <= 35`. -/
theorem C6_witness :
    (10 : ℤ) < 50 ∧ pfLe (.fin 15) (.fin 35) = true ∧
    ∃ n1 n2 : ℤ,
      Api.calcular_nivel_percentual (some (.fin 15)) 10 50 = .value n1 ∧
      Api.calcular_nivel_percentual (some (.fin 35)) 10 50 = .value n2 ∧
      n2 ≤ n1 :=
  ⟨by norm_num, by norm_num [pfLe],
    C6_level_antitone 10 50 (by norm_num) (.fin 15) (.fin 35) (by norm_num [pfLe])⟩

/-- In the SQLAlchemy variant an unrecognized unit or a count below one is
rejected with a 422 client error, uniformly for every database state — in
particular even when the store is completely unavailable, so the rejection
needs no store access. -/
theorem api_window_validation_rejects (unit : String) (value : ℤ)
    (h : Api.parseUnit unit = Option.none ∨ value < 1)
    (db : Api.DbState) (now mn mx : ℤ) :
    Api.get_leituras_por_periodo unit value db now mn mx = .validationError 422 := by
  rcases h with h | h
  · unfold Api.get_leituras_por_periodo
    rw [h]
  · unfold Api.get_leituras_por_periodo
    cases hp : Api.parseUnit unit with
    | none => rfl
    | some u =>
      dsimp only
      rw [if_pos h]

/-- Counterexample to claim C7: the psycopg2 window endpoint
(`src/back/api.py`, `GET /leituras`) does not reject a non-positive count
— with `periodo_horas = 0` the request is not answered with a client
error: on an available store it returns 200 with the (here empty)
windowed list, and when the store is down the same request reaches
`connect_db()` and surfaces its 503, so the handler ran and accessed the
store rather than being rejected beforehand. -/
theorem C7_counterexample :
    Back.get_leituras_por_periodo 0 (.ok []) 70 10 50 = .ok [] ∧
    Back.get_leituras_por_periodo 0 (.ok []) 70 10 50 ≠ .validationError 422 ∧
    Back.get_leituras_por_periodo 0 (.connFail "db down") 70 10 50 =
      .httpError 503 "Serviço indisponível: Falha na conexão com o banco de dados" := by
  refine ⟨?_, ?_, rfl⟩
  · simp [Back.get_leituras_por_periodo, Back.windowRows]
  · simp [Back.get_leituras_por_periodo, Back.windowRows]

/-- Claim C7 as amended: in the SQLAlchemy variant (`src/api.py`) an
unrecognized unit or a count below one is rejected with a 422 client
error uniformly for every database state, before any store access; the
psycopg2 variant (`src/back/api.py`), however, exposes only an integer
`periodo_horas` parameter with no positivity validation — no integer
count is ever rejected as a client error: the handler always runs,
reaches the store (a connection failure surfaces as its 503), and on an
available store answers 200 with the windowed list. -/
theorem C7_amended_validation (unit : String) (value : ℤ)
    (h : Api.parseUnit unit = Option.none ∨ value < 1) :
    (∀ (db : Api.DbState) (now mn mx : ℤ),
      Api.get_leituras_por_periodo unit value db now mn mx = .validationError 422) ∧
    (∀ (periodo : ℤ) (db : Back.DbState) (now mn mx : ℤ) (s : ℕ),
      Back.get_leituras_por_periodo periodo db now mn mx ≠ .validationError s) ∧
    (∀ (periodo : ℤ) (rows : List Back.Row) (now mn mx : ℤ),
      Back.get_leituras_por_periodo periodo (.ok rows) now mn mx =
        .ok ((Back.windowRows rows (now - 60 * periodo)).map
          (fun r => ⟨r.id, r.distancia, Back.process_created_on r.created_on,
            Back.calcular_nivel_percentual r.distancia mn mx⟩))) ∧
    (∀ (periodo : ℤ) (cause : String) (now mn mx : ℤ),
      Back.get_leituras_por_periodo periodo (.connFail cause) now mn mx =
        .httpError 503 "Serviço indisponível: Falha na conexão com o banco de dados") := by
  refine ⟨fun db now mn mx => api_window_validation_rejects unit value h db now mn mx,
    ?_, fun _ _ _ _ _ => rfl, fun _ _ _ _ _ => rfl⟩
  intro periodo db now mn mx s
  cases db <;> simp [Back.get_leituras_por_periodo]

/-- Witness for the amended C7: unit `"x"` is rejected by the SQLAlchemy
variant even with a failing store, while the psycopg2 endpoint accepts
`periodo_horas = 0` and reaches the store. -/
theorem C7_amended_witness :
    (Api.parseUnit "x" = Option.none ∨ (1 : ℤ) < 1) ∧
    Api.get_leituras_por_periodo "x" 1 (Api.DbState.failure "db down") 0 10 50 =
      .validationError 422 ∧
    Back.get_leituras_por_periodo 0 (.ok []) 70 10 50 =
      .ok ((Back.windowRows [] (70 - 60 * 0)).map
        (fun r => ⟨r.id, r.distancia, Back.process_created_on r.created_on,
          Back.calcular_nivel_percentual r.distancia 10 50⟩)) ∧
    Back.get_leituras_por_periodo 0 (.connFail "db down") 70 10 50 =
      .httpError 503 "Serviço indisponível: Falha na conexão com o banco de dados" := by
  have h := C7_amended_validation "x" 1 (Or.inl (by decide))
  exact ⟨Or.inl (by decide), h.1 (Api.DbState.failure "db down") 0 10 50,
    h.2.2.1 0 [] 70 10 50, h.2.2.2 0 "db down" 70 10 50⟩

/-- Claim C8: a store failure in either operation surfaces as a fixed,
generic error response — the detail string is a constant, independent of
the underlying cause, which therefore never appears in the body — while an
empty store is not an error: the latest-reading endpoint of the psycopg2
variant answers `.ok Option.none` (it serializes `{}`) and the window
endpoint answers the empty list. -/
theorem C8_failure_semantics :
    (∀ (cause : String) (mn mx : ℤ),
      Back.get_ultima_leitura (.queryFail cause) mn mx =
        .httpError 500 "Erro interno do servidor ao buscar última leitura") ∧
    (∀ (cause : String) (mn mx : ℤ),
      Back.get_ultima_leitura (.connFail cause) mn mx =
        .httpError 503 "Serviço indisponível: Falha na conexão com o banco de dados") ∧
    (∀ mn mx : ℤ, Back.get_ultima_leitura (.ok []) mn mx = .ok Option.none) ∧
    (∀ (cause : String) (now mn mx : ℤ),
      Api.get_leituras_por_periodo "h" 1 (.failure cause) now mn mx =
        .httpError 500 "Erro interno do servidor ao buscar histórico") ∧
    (∀ now mn mx : ℤ,
      Api.get_leituras_por_periodo "h" 1 (.ok []) now mn mx = .ok []) := by
  refine ⟨fun _ _ _ => rfl, fun _ _ _ => rfl, ?_, fun _ _ _ _ => rfl, ?_⟩
  · intro mn mx
    simp [Back.get_ultima_leitura, Back.latestRow]
  · intro now mn mx
    simp [Api.get_leituras_por_periodo, Api.parseUnit, Api.windowRows]

/-- Claim C9: rounding uses one consistent tie-breaking rule — the Python
round-half-to-even rule: at every exact `.5` boundary the result is the
even neighbour — and at bounds `10`/`50` with distance `20` the level is
`75`. -/
theorem C9_rounding_rule :
    (∀ k : ℤ, pyRound ((k : ℚ) + 1/2) = if 2 ∣ k then k else k + 1) ∧
    Api.calcular_nivel_percentual (some (.fin 20)) 10 50 = .value 75 := by
  constructor
  · intro k
    have hf : ⌊(k : ℚ) + 1/2⌋ = k := by
      rw [Int.floor_int_add]
      norm_num
    rw [pyRound_floor_def, hf]
    have hsub : ((k : ℚ) + 1/2) - k = 1/2 := by ring
    rw [hsub, if_neg (by norm_num), if_neg (by norm_num)]
  · rw [api_calc_fin 20 10 50 (by norm_num)]
    norm_num [pyRound_floor_def]

/-- Claim C10: the two duplicated level calculators — variant
`_calcular_nivel_percentual` of `src/api.py` and variant
`calcular_nivel_percentual` of `src/back/api.py` — are extensionally
equal. -/
theorem C10_calculators_extensionally_equal :
    ∀ (d : Option PyFloat) (mn mx : ℤ),
      Api.calcular_nivel_percentual d mn mx = Back.calcular_nivel_percentual d mn mx :=
  fun _ _ _ => rfl

end CaixaDagua
